import Mathlib

/-!
Verification of the PLC proxy firewall and the SQL correlation engine of the
CSEE481 PRT security back-end (`back-end/Communication/PLCProxyFirewall.py`,
`back-end/Communication/CorrelationEngine.py`, `back-end/Communication/PRTDB.py`).

The Python code is shallowly embedded: sets of IP strings become `List String`
with set-style membership, database rows become structures, wall-clock reads
become an explicit `now : Nat` parameter, and calls into the fallible external
store become `Except String _` parameters describing the outcome of the call.
-/

namespace PRTSec

/-! ## Whitelist store (`PLCProxyFirewall.__init__`, `_load_whitelist_from_db`,
`refresh_whitelist`, `is_whitelisted`) -/

/-- State of the proxy firewall's whitelist: the static part fixed at
construction and the working merged whitelist.  Mirrors the
`_static_whitelist` and `_whitelist` attributes of `PLCProxyFirewall`. -/
structure FirewallState where
  static_whitelist : List String
  whitelist : List String
deriving Repr, DecidableEq

/-- Outcome of one call to the external store's dynamic-whitelist fetch
(`prtdb.get_firewall_whitelist()`): either the list of `ip_address` fields of
the returned rows, or the message of the exception it raised. -/
abbrev FetchResult := Except String (List String)

/-- Embeds `PLCProxyFirewall._load_whitelist_from_db`: on a successful fetch
the working whitelist becomes static ∪ fetched; if the fetch raises, the
handler logs a warning and sets the working whitelist to a copy of the static
whitelist alone. -/
def load_whitelist_from_db (st : FirewallState) (fetch : FetchResult) : FirewallState :=
  match fetch with
  | Except.ok db_ips => { st with whitelist := st.static_whitelist ++ db_ips }
  | Except.error _ => { st with whitelist := st.static_whitelist }

/-- Embeds `PLCProxyFirewall.refresh_whitelist`, which just delegates to
`_load_whitelist_from_db`. -/
def refresh_whitelist (st : FirewallState) (fetch : FetchResult) : FirewallState :=
  load_whitelist_from_db st fetch

/-- Embeds `PLCProxyFirewall.__init__`: the static whitelist is the
`whitelist_ips` argument (empty when `None`) with `127.0.0.1` always added;
the working whitelist starts as a copy of the static set and is then merged
with the dynamic entries by the constructor's `_load_whitelist_from_db` call,
whose fetch outcome is `fetch0`. -/
def firewall_init (whitelist_ips : Option (List String)) (fetch0 : FetchResult) :
    FirewallState :=
  let static := (whitelist_ips.getD []) ++ ["127.0.0.1"]
  load_whitelist_from_db { static_whitelist := static, whitelist := static } fetch0

/-- A firewall state after construction followed by any sequence of
`refresh_whitelist` calls, one per fetch outcome in `fetches`. -/
def firewall_run (whitelist_ips : Option (List String)) (fetch0 : FetchResult)
    (fetches : List FetchResult) : FirewallState :=
  fetches.foldl refresh_whitelist (firewall_init whitelist_ips fetch0)

/-- Embeds `PLCProxyFirewall.is_whitelisted`: membership of the IP in the
working whitelist. -/
def is_whitelisted (st : FirewallState) (ip : String) : Bool :=
  decide (ip ∈ st.whitelist)

lemma load_static_eq (st : FirewallState) (f : FetchResult) :
    (load_whitelist_from_db st f).static_whitelist = st.static_whitelist := by
  cases f <;> rfl

lemma run_static_eq (ips : Option (List String)) (f0 : FetchResult)
    (fs : List FetchResult) :
    (firewall_run ips f0 fs).static_whitelist = (ips.getD []) ++ ["127.0.0.1"] := by
  suffices h : ∀ (st : FirewallState) (fs : List FetchResult),
      (fs.foldl refresh_whitelist st).static_whitelist = st.static_whitelist by
    rw [firewall_run, h]
    unfold firewall_init
    rw [load_static_eq]
  intro st fs
  induction fs generalizing st with
  | nil => rfl
  | cons f rest ih =>
      rw [List.foldl_cons, ih]
      exact load_static_eq st f

lemma static_subset_whitelist (st : FirewallState) (f : FetchResult) :
    st.static_whitelist ⊆ (load_whitelist_from_db st f).whitelist := by
  cases f with
  | ok d => intro x hx; exact List.mem_append_left _ hx
  | error e => intro x hx; exact hx

lemma run_whitelist_superset (ips : Option (List String)) (f0 : FetchResult)
    (fs : List FetchResult) :
    (firewall_run ips f0 fs).static_whitelist ⊆ (firewall_run ips f0 fs).whitelist := by
  rw [firewall_run]
  induction fs using List.reverseRecOn with
  | nil =>
      rw [List.foldl_nil]
      show (load_whitelist_from_db
        { static_whitelist := (ips.getD []) ++ ["127.0.0.1"],
          whitelist := (ips.getD []) ++ ["127.0.0.1"] } f0).static_whitelist ⊆
        (load_whitelist_from_db
        { static_whitelist := (ips.getD []) ++ ["127.0.0.1"],
          whitelist := (ips.getD []) ++ ["127.0.0.1"] } f0).whitelist
      rw [load_static_eq]
      exact static_subset_whitelist _ f0
  | append_singleton rest f ih =>
      rw [List.foldl_append, List.foldl_cons, List.foldl_nil]
      show (load_whitelist_from_db (rest.foldl refresh_whitelist (firewall_init ips f0))
          f).static_whitelist ⊆
        (load_whitelist_from_db (rest.foldl refresh_whitelist (firewall_init ips f0)) f).whitelist
      rw [load_static_eq]
      exact static_subset_whitelist _ f

/-! ## Security-event log and alert store (`PRTDB`) -/

/-- A row of the `PLCSecurityLogs` table, restricted to the columns the
correlation queries read (`id`, `plc_ip`, `event_type`, `severity`,
`timestamp`).  Timestamps are Unix seconds. -/
structure SecurityEvent where
  id : Nat
  plc_ip : String
  event_type : String
  severity : String
  timestamp : Nat
deriving Repr, DecidableEq

/-- A row of the `PLCSecurityAlerts` table, restricted to the columns the
engine writes and the claims read.  `alert_id` carries a UNIQUE index. -/
structure AlertRow where
  alert_id : String
  rule_id : String
  rule_level : Nat
  plc_ip : String
  event_type : String
  severity : String
  matched_event_count : Nat
deriving Repr, DecidableEq

/-- The `PLCSecurityAlerts` table in insertion order. -/
abbrev AlertStore := List AlertRow

/-- Whether the store already holds a row with the given `alert_id`
(the UNIQUE index that `INSERT IGNORE` consults). -/
def containsAlert (s : AlertStore) (aid : String) : Bool :=
  s.any (fun a => a.alert_id == aid)

/-- Embeds `PRTDB.store_correlation_alert`: an `INSERT IGNORE` against the
UNIQUE `alert_id` index returns the number of rows inserted — `1` when the id
is new, `0` for a duplicate — and never raises (the source additionally wraps
the call in a handler returning `0`). -/
def store_correlation_alert (s : AlertStore) (row : AlertRow) : Nat × AlertStore :=
  if containsAlert s row.alert_id then (0, s) else (1, s ++ [row])

/-! ## Correlation queries (`PRTDB` correlation query methods) -/

/-- A row of the CORR_003 join result: one row per CRITICAL FAULT that has a
qualifying earlier MODE_CHANGE (the SQL groups by `f.plc_ip, f.id`, so each
fault contributes at most one row). -/
structure FaultRow where
  plc_ip : String
  fault_id : Nat
deriving Repr, DecidableEq

/-- Embeds `PRTDB.find_faults_after_mode_changes`: self-join of
`PLCSecurityLogs` selecting each CRITICAL FAULT `f` in the last
`fault_window_seconds` before `now` such that some MODE_CHANGE `m` on the same
`plc_ip` satisfies `m.timestamp < f.timestamp` and
`m.timestamp >= f.timestamp - fault_window_seconds`; grouped by
`(f.plc_ip, f.id)`. -/
def find_faults_after_mode_changes (log : List SecurityEvent) (now : Nat)
    (fault_window_seconds : Nat) : List FaultRow :=
  (log.filter (fun f =>
      f.event_type == "FAULT" && f.severity == "CRITICAL" &&
      decide (now - fault_window_seconds ≤ f.timestamp) &&
      log.any (fun m =>
        m.plc_ip == f.plc_ip && m.event_type == "MODE_CHANGE" &&
        decide (m.timestamp < f.timestamp) &&
        decide (f.timestamp - fault_window_seconds ≤ m.timestamp)))).map
    (fun f => { plc_ip := f.plc_ip, fault_id := f.id })

/-- A row of the grouped count queries: events per entity in the window. -/
structure CountRow where
  plc_ip : String
  event_count : Nat
deriving Repr, DecidableEq

/-- Modelled from the spec: `PRTDB.count_firewall_blocks_in_window` is called
by `CorrelationEngine._check_firewall_scan` but is absent from the source
tree; spec §6 gives its contract as
`query_deny_counts(window_seconds) -> [(entity_ip, count, contributing_ids)]`:
group the FIREWALL_BLOCK events of the last `timeframe_seconds` by entity IP
with their counts, in the same shape as the sibling query
`PRTDB.count_events_in_window`. -/
def count_firewall_blocks_in_window (log : List SecurityEvent) (now : Nat)
    (timeframe_seconds : Nat) : List CountRow :=
  let blocks := log.filter (fun e =>
    e.event_type == "FIREWALL_BLOCK" && decide (now - timeframe_seconds ≤ e.timestamp))
  ((blocks.map (fun e => e.plc_ip)).eraseDups).map
    (fun ip => { plc_ip := ip,
                 event_count := (blocks.filter (fun e => e.plc_ip == ip)).length })

/-! ## Correlation engine (`CorrelationEngine`) -/

/-- Embeds `CorrelationEngine._generate_alert_id`: the deterministic dedup
identity is the string `rule_id + "_" + plc_ip + "_" + time_bucket`. -/
def generate_alert_id (rule_id : String) (plc_ip : String) (time_bucket : Nat) : String :=
  rule_id ++ "_" ++ plc_ip ++ "_" ++ toString time_bucket

/-- Embeds `CorrelationEngine._get_time_bucket`: the current time rounded down
to the nearest multiple of the rule's timeframe. -/
def get_time_bucket (now : Nat) (timeframe_seconds : Nat) : Nat :=
  now - now % timeframe_seconds

/-- One iteration of the rule check loops: run the idempotent insert for the
candidate row and count it only when the insert reported a newly inserted row
(the source's `if stored > 0: count += 1`). -/
def insert_alert_step (acc : Nat × AlertStore) (a : AlertRow) : Nat × AlertStore :=
  let r := store_correlation_alert acc.2 a
  (if r.1 > 0 then acc.1 + 1 else acc.1, r.2)

/-- Shared shape of the rule check loops: fold `insert_alert_step` over the
candidate alert rows in order. -/
def insert_alerts (alerts : List AlertRow) (acc : Nat × AlertStore) : Nat × AlertStore :=
  alerts.foldl insert_alert_step acc

/-- Embeds `CorrelationEngine._check_fault_after_mode_change` (CORR_003):
every row of the sequential query becomes an alert candidate with
`rule_id = CORR_003`, `rule_level = 13`, `matched_event_count = 2` and dedup
id `CORR_003_<ip>_<bucket>`; returns the number of newly inserted alerts and
the updated store. -/
def check_fault_after_mode_change (log : List SecurityEvent) (now : Nat)
    (store : AlertStore) : Nat × AlertStore :=
  let timeframe := 300
  let rows := find_faults_after_mode_changes log now timeframe
  let bucket := get_time_bucket now timeframe
  insert_alerts
    (rows.map (fun row =>
      { alert_id := generate_alert_id "CORR_003" row.plc_ip bucket,
        rule_id := "CORR_003", rule_level := 13, plc_ip := row.plc_ip,
        event_type := "FAULT", severity := "CRITICAL", matched_event_count := 2 }))
    (0, store)

/-- Embeds `CorrelationEngine._check_firewall_scan` (CORR_004): entities with
at least 10 FIREWALL_BLOCK events in the last 120 seconds become alert
candidates with `rule_id = CORR_004`, `rule_level = 15` and dedup id
`CORR_004_<ip>_<bucket>`. -/
def check_firewall_scan (log : List SecurityEvent) (now : Nat)
    (store : AlertStore) : Nat × AlertStore :=
  let timeframe := 120
  let threshold := 10
  let rows := count_firewall_blocks_in_window log now timeframe
  let bucket := get_time_bucket now timeframe
  insert_alerts
    ((rows.filter (fun row => decide (threshold ≤ row.event_count))).map
      (fun row =>
        { alert_id := generate_alert_id "CORR_004" row.plc_ip bucket,
          rule_id := "CORR_004", rule_level := 15, plc_ip := row.plc_ip,
          event_type := "FIREWALL_BLOCK", severity := "CRITICAL",
          matched_event_count := row.event_count }))
    (0, store)

/-! ## The correlation pass (`CorrelationEngine.run_correlation`)

The four `count += self._check_...()` calls sit inside a single `try` block;
each call either returns a count or raises, so a pass is driven by the ordered
list of its rules' outcomes, each an `Except`.  The `except` clause catches
any exception, prints it, and the function continues with the partially
accumulated `count`. -/

/-- Engine statistics (`_alerts_generated`, `_checks_performed`). -/
structure EngineStats where
  alerts_generated : Nat
  checks_performed : Nat
deriving Repr, DecidableEq

/-- Body of `run_correlation`'s `try` block: evaluate the rules left to right,
accumulating `count`; a raising rule stops evaluation at once.  Returns the
accumulated count, how many rules were actually evaluated, and the caught
exception message, if any. -/
def try_rules : List (Except String Nat) → Nat → Nat → Nat × Nat × Option String
  | [], count, attempted => (count, attempted, none)
  | r :: rest, count, attempted =>
      match r with
      | Except.ok n => try_rules rest (count + n) (attempted + 1)
      | Except.error e => (count, attempted + 1, some e)

/-- Result of one call to `run_correlation`: the returned count, how many of
the pass's rules were evaluated, and the updated statistics.  The function is
total: the `except Exception` clause absorbs any rule exception. -/
structure PassResult where
  count : Nat
  rules_attempted : Nat
  stats : EngineStats
deriving Repr, DecidableEq

/-- Embeds `CorrelationEngine.run_correlation`: run the rules inside one
`try`, catch any exception (logging it), increment `_checks_performed`, add
`count` to `_alerts_generated` when positive, and return `count`. -/
def run_correlation (rules : List (Except String Nat)) (stats : EngineStats) :
    PassResult :=
  let r := try_rules rules 0 0
  let count := r.1
  let stats1 : EngineStats :=
    { stats with checks_performed := stats.checks_performed + 1 }
  let stats2 : EngineStats :=
    if count > 0 then { stats1 with alerts_generated := stats1.alerts_generated + count }
    else stats1
  { count := count, rules_attempted := r.2.1, stats := stats2 }

/-! ## Connection gate and relay session (`PLCProxyFirewall._listener_thread`,
`_relay_thread`)

The socket-level behaviour of one accepted connection, and of one relay
session, is embedded as the ordered trace of the primitive effects the source
performs: counter updates, events recorded to the `PLCSecurityLogs` sink,
console prints, socket closes, relay spawning, and upstream traffic. -/

/-- Modelled from the spec: the event-type constants
`PRTDB.EVENT_FIREWALL_BLOCK` and `PRTDB.EVENT_FIREWALL_ALLOW` are referenced
by `PLCProxyFirewall._log_firewall_event` but are absent from the `PRTDB`
source; the spec names the DENY event type `FIREWALL_BLOCK` and the allow
event type `FIREWALL_ALLOW`. -/
def EVENT_FIREWALL_BLOCK : String := "FIREWALL_BLOCK"

/-- Modelled from the spec: see `EVENT_FIREWALL_BLOCK`. -/
def EVENT_FIREWALL_ALLOW : String := "FIREWALL_ALLOW"

/-- An event recorded to the `PLCSecurityLogs` sink by the firewall,
restricted to the fields the claims read (type, severity, source IP). -/
structure FirewallEvent where
  event_type : String
  severity : String
  plc_ip : String
deriving Repr, DecidableEq

/-- Embeds `PLCProxyFirewall._log_firewall_event`: the event type is
FIREWALL_ALLOW or FIREWALL_BLOCK according to `allowed`, with the given
severity and the source IP as the entity. -/
def log_firewall_event (source_ip : String) (allowed : Bool) (severity : String) :
    FirewallEvent :=
  { event_type := if allowed then EVENT_FIREWALL_ALLOW else EVENT_FIREWALL_BLOCK,
    severity := severity, plc_ip := source_ip }

/-- One primitive observable effect of the gate or of a relay session. -/
inductive FwAction where
  | incAllowed
  | incBlocked
  | incActive
  | decActive
  | sinkEvent (e : FirewallEvent)
  | consolePrint
  | spawnRelay (target_port : Nat)
  | closeClient
  | closeUpstream
  | connectUpstream (target_port : Nat)
  | sendUpstream
  | sendClient
deriving Repr, DecidableEq

/-- The events a trace records to the `PLCSecurityLogs` sink, in order. -/
def sink_events (tr : List FwAction) : List FirewallEvent :=
  tr.filterMap (fun a =>
    match a with
    | FwAction.sinkEvent e => some e
    | _ => none)

/-- Embeds the per-accepted-connection body of
`PLCProxyFirewall._listener_thread`: if the source IP is whitelisted,
increment the allow counter, record an INFO FIREWALL_ALLOW event when
`LOG_ALLOWED_CONNECTIONS` is set, and spawn a relay thread bound to the
target port; otherwise increment the block counter, record a WARNING
FIREWALL_BLOCK event, and close the client socket.  Upstream traffic happens
only inside a spawned relay session (`relay_thread`), never in the listener. -/
def handle_connection (st : FirewallState) (source_ip : String) (target_port : Nat)
    (log_allowed_connections : Bool) : List FwAction :=
  if is_whitelisted st source_ip then
    [FwAction.incAllowed] ++
    (if log_allowed_connections then
      [FwAction.sinkEvent (log_firewall_event source_ip true "INFO")]
    else []) ++
    [FwAction.spawnRelay target_port]
  else
    [FwAction.incBlocked,
     FwAction.sinkEvent (log_firewall_event source_ip false "WARNING"),
     FwAction.closeClient]

/-- Embeds `PLCProxyFirewall._relay_thread` as a trace: increment the
active-connection counter, attempt the upstream connect; on success run the
relay loop (abstracted as `body`, the loop's own trace), on failure print the
error to the console (the `except` clause); in the `finally` clause decrement
the counter and close the client socket and then the upstream socket. -/
def relay_thread (target_port : Nat) (connect : Except String Unit)
    (body : List FwAction) : List FwAction :=
  [FwAction.incActive] ++
  (match connect with
   | Except.ok _ => [FwAction.connectUpstream target_port] ++ body
   | Except.error _ => [FwAction.consolePrint]) ++
  [FwAction.decActive, FwAction.closeClient, FwAction.closeUpstream]

/-! ## Supporting lemmas -/

lemma insert_alerts_count_eq_added (as : List AlertRow) (n : Nat) (s : AlertStore) :
    (insert_alerts as (n, s)).1 + s.length = n + (insert_alerts as (n, s)).2.length := by
  induction as generalizing n s with
  | nil => simp [insert_alerts]
  | cons a rest ih =>
      show (insert_alerts rest (insert_alert_step (n, s) a)).1 + s.length =
        n + (insert_alerts rest (insert_alert_step (n, s) a)).2.length
      by_cases h : containsAlert s a.alert_id
      · have hstep : insert_alert_step (n, s) a = (n, s) := by
          simp [insert_alert_step, store_correlation_alert, h]
        rw [hstep, ih]
      · have hstep : insert_alert_step (n, s) a = (n + 1, s ++ [a]) := by
          simp [insert_alert_step, store_correlation_alert, h]
        rw [hstep]
        have := ih (n + 1) (s ++ [a])
        simp only [List.length_append, List.length_singleton] at this
        omega

lemma try_rules_prefix_error (pre : List Nat) (e : String)
    (post : List (Except String Nat)) (c a : Nat) :
    try_rules (pre.map Except.ok ++ Except.error e :: post) c a =
      (c + pre.sum, a + pre.length + 1, some e) := by
  induction pre generalizing c a with
  | nil => simp [try_rules]
  | cons n rest ih =>
      show try_rules (rest.map Except.ok ++ Except.error e :: post) (c + n) (a + 1) = _
      rw [ih]
      simp [List.sum_cons]
      constructor
      · ring
      · omega

/-! ## Claim theorems -/

/-- Claim C10: in every reachable state of the firewall — any `whitelist_ips`
configuration at construction, any constructor-time fetch outcome, and any
sequence of refresh outcomes — `is_whitelisted "127.0.0.1"` returns true: the
loopback address is unconditionally added to the static whitelist and the
working whitelist always contains the static whitelist. -/
theorem loopback_always_whitelisted (ips : Option (List String)) (f0 : FetchResult)
    (fs : List FetchResult) :
    is_whitelisted (firewall_run ips f0 fs) "127.0.0.1" = true := by
  have hsub := run_whitelist_superset ips f0 fs
  have hmem : "127.0.0.1" ∈ (firewall_run ips f0 fs).static_whitelist := by
    rw [run_static_eq]
    exact List.mem_append_right _ (List.mem_singleton.mpr rfl)
  simpa [is_whitelisted] using hsub hmem

/-- Claim C2: after construction and any sequence of refreshes whose last
refresh completed with the store returning the dynamic set `D`,
`is_whitelisted ip` is true exactly when `ip` is in the static whitelist
(the configured IPs plus `127.0.0.1`) or in `D`, and false for every other
`ip`. -/
theorem is_whitelisted_iff_static_union_dynamic (ips : Option (List String))
    (f0 : FetchResult) (fs : List FetchResult) (D : List String) (ip : String) :
    is_whitelisted (firewall_run ips f0 (fs ++ [Except.ok D])) ip = true ↔
      ip ∈ (ips.getD []) ++ ["127.0.0.1"] ∨ ip ∈ D := by
  have hrun : firewall_run ips f0 (fs ++ [Except.ok D]) =
      load_whitelist_from_db (firewall_run ips f0 fs) (Except.ok D) := by
    simp [firewall_run, List.foldl_append, refresh_whitelist]
  rw [hrun]
  have hwl : (load_whitelist_from_db (firewall_run ips f0 fs) (Except.ok D)).whitelist =
      (firewall_run ips f0 fs).static_whitelist ++ D := rfl
  rw [is_whitelisted, decide_eq_true_eq, hwl, run_static_eq]
  exact List.mem_append

/-- Claim C3 counterexample: construct the firewall with an empty static
configuration while the store returns the dynamic entry `10.0.0.5`, then
refresh once with a fetch that raises.  Before the refresh `10.0.0.5` is
whitelisted; after it, it is not — the previous static-union-dynamic snapshot
is not kept. -/
theorem refresh_failure_drops_dynamic_cex :
    is_whitelisted (firewall_init (some []) (Except.ok ["10.0.0.5"])) "10.0.0.5" = true ∧
    is_whitelisted
      (refresh_whitelist (firewall_init (some []) (Except.ok ["10.0.0.5"]))
        (Except.error "db connection lost")) "10.0.0.5" = false := by
  constructor <;> rfl

/-- Claim C3 amended: if the dynamic-whitelist fetch raises during
`refresh_whitelist`, the working whitelist is reset to the static whitelist
alone — dynamic entries obtained by earlier successful refreshes are dropped,
not kept — and the failure is only logged.  After such a refresh,
`is_whitelisted ip` holds exactly for the static IPs. -/
theorem refresh_failure_resets_to_static (ips : Option (List String))
    (f0 : FetchResult) (fs : List FetchResult) (e : String) (ip : String) :
    is_whitelisted (firewall_run ips f0 (fs ++ [Except.error e])) ip = true ↔
      ip ∈ (ips.getD []) ++ ["127.0.0.1"] := by
  have hrun : firewall_run ips f0 (fs ++ [Except.error e]) =
      load_whitelist_from_db (firewall_run ips f0 fs) (Except.error e) := by
    simp [firewall_run, List.foldl_append, refresh_whitelist]
  rw [hrun]
  have hwl : (load_whitelist_from_db (firewall_run ips f0 fs) (Except.error e)).whitelist =
      (firewall_run ips f0 fs).static_whitelist := rfl
  rw [is_whitelisted, decide_eq_true_eq, hwl, run_static_eq]

/-- Claim C1: for the firewall-scan rule CORR_004, a correlation pass over a
log holding 9 FIREWALL_BLOCK (DENY) events from one source IP within 120
seconds generates 0 alerts, and a pass after a 10th such event generates
exactly 1 new alert with `rule_id = CORR_004` and `rule_level = 15`.  (The
grouped count query is modelled from the spec, see
`count_firewall_blocks_in_window`.) -/
theorem corr004_firewall_scan_threshold :
    check_firewall_scan
      [⟨1, "203.0.113.9", "FIREWALL_BLOCK", "WARNING", 1000⟩,
       ⟨2, "203.0.113.9", "FIREWALL_BLOCK", "WARNING", 1001⟩,
       ⟨3, "203.0.113.9", "FIREWALL_BLOCK", "WARNING", 1002⟩,
       ⟨4, "203.0.113.9", "FIREWALL_BLOCK", "WARNING", 1003⟩,
       ⟨5, "203.0.113.9", "FIREWALL_BLOCK", "WARNING", 1004⟩,
       ⟨6, "203.0.113.9", "FIREWALL_BLOCK", "WARNING", 1005⟩,
       ⟨7, "203.0.113.9", "FIREWALL_BLOCK", "WARNING", 1006⟩,
       ⟨8, "203.0.113.9", "FIREWALL_BLOCK", "WARNING", 1007⟩,
       ⟨9, "203.0.113.9", "FIREWALL_BLOCK", "WARNING", 1008⟩] 1010 [] = (0, []) ∧
    check_firewall_scan
      [⟨1, "203.0.113.9", "FIREWALL_BLOCK", "WARNING", 1000⟩,
       ⟨2, "203.0.113.9", "FIREWALL_BLOCK", "WARNING", 1001⟩,
       ⟨3, "203.0.113.9", "FIREWALL_BLOCK", "WARNING", 1002⟩,
       ⟨4, "203.0.113.9", "FIREWALL_BLOCK", "WARNING", 1003⟩,
       ⟨5, "203.0.113.9", "FIREWALL_BLOCK", "WARNING", 1004⟩,
       ⟨6, "203.0.113.9", "FIREWALL_BLOCK", "WARNING", 1005⟩,
       ⟨7, "203.0.113.9", "FIREWALL_BLOCK", "WARNING", 1006⟩,
       ⟨8, "203.0.113.9", "FIREWALL_BLOCK", "WARNING", 1007⟩,
       ⟨9, "203.0.113.9", "FIREWALL_BLOCK", "WARNING", 1008⟩,
       ⟨10, "203.0.113.9", "FIREWALL_BLOCK", "WARNING", 1009⟩] 1010 [] =
      (1, [{ alert_id := "CORR_004_203.0.113.9_960", rule_id := "CORR_004",
             rule_level := 15, plc_ip := "203.0.113.9",
             event_type := "FIREWALL_BLOCK", severity := "CRITICAL",
             matched_event_count := 10 }]) := by
  constructor <;> rfl

/-- Claim C6: for the sequential rule CORR_003 with window 300 s, a
MODE_CHANGE at t=0 followed by a CRITICAL FAULT at t=250 on the same entity
produces exactly 1 alert with `rule_id = CORR_003`, while the same MODE_CHANGE
with the fault at t=400 produces 0 alerts; a fault at exactly t=300 (300
seconds after the mode change, the inclusive window edge) still produces the
alert. -/
theorem corr003_window_boundaries :
    check_fault_after_mode_change
      [⟨1, "192.168.1.77", "MODE_CHANGE", "INFO", 0⟩,
       ⟨2, "192.168.1.77", "FAULT", "CRITICAL", 250⟩] 260 [] =
      (1, [{ alert_id := "CORR_003_192.168.1.77_0", rule_id := "CORR_003",
             rule_level := 13, plc_ip := "192.168.1.77", event_type := "FAULT",
             severity := "CRITICAL", matched_event_count := 2 }]) ∧
    check_fault_after_mode_change
      [⟨1, "192.168.1.77", "MODE_CHANGE", "INFO", 0⟩,
       ⟨2, "192.168.1.77", "FAULT", "CRITICAL", 400⟩] 410 [] = (0, []) ∧
    (check_fault_after_mode_change
      [⟨1, "192.168.1.77", "MODE_CHANGE", "INFO", 0⟩,
       ⟨2, "192.168.1.77", "FAULT", "CRITICAL", 300⟩] 310 []).1 = 1 := by
  refine ⟨rfl, rfl, rfl⟩

/-- Claim C5 counterexample: a MODE_CHANGE at t=0 followed by two distinct
CRITICAL FAULTs (t=100 and t=200) on the same entity within the window gives
two candidate rows in the sequential query, but the correlation pass inserts
only 1 alert, not 2: the dedup identity ignores the fault id. -/
theorem corr003_two_faults_one_alert_cex :
    (find_faults_after_mode_changes
      [⟨1, "10.0.0.8", "MODE_CHANGE", "INFO", 0⟩,
       ⟨2, "10.0.0.8", "FAULT", "CRITICAL", 100⟩,
       ⟨3, "10.0.0.8", "FAULT", "CRITICAL", 200⟩] 210 300).length = 2 ∧
    (check_fault_after_mode_change
      [⟨1, "10.0.0.8", "MODE_CHANGE", "INFO", 0⟩,
       ⟨2, "10.0.0.8", "FAULT", "CRITICAL", 100⟩,
       ⟨3, "10.0.0.8", "FAULT", "CRITICAL", 200⟩] 210 []).2.length = 1 ∧
    (1 : Nat) ≠ 2 := by
  refine ⟨rfl, rfl, by decide⟩

/-- Claim C5 amended: for the sequential rule CORR_003, every
(MODE_CHANGE, later CRITICAL FAULT) pair on the same entity within the window
is a distinct alert candidate (one candidate row per fault, grouped by
`(plc_ip, fault id)`), but the dedup identity depends only on
`(rule_id, entity, time bucket)`, so two different CRITICAL FAULTs following
one MODE_CHANGE on the same entity in the same time bucket yield one inserted
alert, not two. -/
theorem corr003_candidates_share_dedup_identity :
    find_faults_after_mode_changes
      [⟨1, "10.0.0.8", "MODE_CHANGE", "INFO", 0⟩,
       ⟨2, "10.0.0.8", "FAULT", "CRITICAL", 100⟩,
       ⟨3, "10.0.0.8", "FAULT", "CRITICAL", 200⟩] 210 300 =
      [{ plc_ip := "10.0.0.8", fault_id := 2 }, { plc_ip := "10.0.0.8", fault_id := 3 }] ∧
    (∀ (ip : String) (bucket f1 f2 : Nat),
      generate_alert_id "CORR_003" (FaultRow.mk ip f1).plc_ip bucket =
        generate_alert_id "CORR_003" (FaultRow.mk ip f2).plc_ip bucket) ∧
    check_fault_after_mode_change
      [⟨1, "10.0.0.8", "MODE_CHANGE", "INFO", 0⟩,
       ⟨2, "10.0.0.8", "FAULT", "CRITICAL", 100⟩,
       ⟨3, "10.0.0.8", "FAULT", "CRITICAL", 200⟩] 210 [] =
      (1, [{ alert_id := "CORR_003_10.0.0.8_0", rule_id := "CORR_003",
             rule_level := 13, plc_ip := "10.0.0.8", event_type := "FAULT",
             severity := "CRITICAL", matched_event_count := 2 }]) := by
  refine ⟨rfl, ?_, rfl⟩
  intro ip bucket f1 f2
  rfl

/-- Claim C4 counterexample: with the first rule of a four-rule pass raising,
`run_correlation` evaluates only that one rule — the remaining three rules of
the same pass are not evaluated, contradicting the claim that every remaining
rule still runs. -/
theorem run_correlation_skips_rest_cex :
    (run_correlation
      [Except.error "db unavailable", Except.ok 1, Except.ok 1, Except.ok 1]
      { alerts_generated := 0, checks_performed := 0 }).rules_attempted = 1 ∧
    (1 : Nat) ≠ 4 := by
  refine ⟨rfl, by decide⟩

/-- Claim C4 amended: in a single call to `run_correlation`, if evaluating one
rule raises an exception, the exception is caught and logged inside
`run_correlation` and never propagates, so the periodic driver survives across
passes — the pass still completes, incrementing `_checks_performed` — but the
remaining rules of that same pass are skipped rather than evaluated, and the
returned count is the sum contributed by the rules evaluated before the
exception. -/
theorem run_correlation_catches_and_skips (pre : List Nat) (e : String)
    (post : List (Except String Nat)) (stats : EngineStats) :
    run_correlation (pre.map Except.ok ++ Except.error e :: post) stats =
      { count := pre.sum,
        rules_attempted := pre.length + 1,
        stats := { alerts_generated := stats.alerts_generated + pre.sum,
                   checks_performed := stats.checks_performed + 1 } } := by
  rw [run_correlation]
  rw [try_rules_prefix_error pre e post 0 0]
  simp only [Nat.zero_add]
  by_cases h : pre.sum > 0
  · simp [h]
  · have h0 : pre.sum = 0 := Nat.eq_zero_of_not_pos h
    simp [h, h0]

/-- Claim C7: inserting an alert row into a store not containing its
`alert_id`, then inserting a row with the same `alert_id` again, returns
`rows_inserted` 1 then 0, never an error, and the second call leaves the store
unchanged; and every rule check's returned count — the amount by which the
engine increases `_alerts_generated` — equals exactly the number of rows the
pass newly inserted into the store. -/
theorem alert_insert_idempotent_and_counted (s : AlertStore) (r r' : AlertRow)
    (hid : r'.alert_id = r.alert_id) (habs : containsAlert s r.alert_id = false) :
    (store_correlation_alert s r).1 = 1 ∧
    (store_correlation_alert (store_correlation_alert s r).2 r').1 = 0 ∧
    (store_correlation_alert (store_correlation_alert s r).2 r').2 =
      (store_correlation_alert s r).2 ∧
    (∀ (log : List SecurityEvent) (now : Nat) (store : AlertStore),
      (check_fault_after_mode_change log now store).1 + store.length =
        (check_fault_after_mode_change log now store).2.length) ∧
    (∀ (log : List SecurityEvent) (now : Nat) (store : AlertStore),
      (check_firewall_scan log now store).1 + store.length =
        (check_firewall_scan log now store).2.length) := by
  have hfirst : store_correlation_alert s r = (1, s ++ [r]) := by
    simp [store_correlation_alert, habs]
  have hdup : containsAlert (s ++ [r]) r'.alert_id = true := by
    simp [containsAlert, List.any_append, hid]
  have hsecond : store_correlation_alert (s ++ [r]) r' = (0, s ++ [r]) := by
    simp [store_correlation_alert, hdup]
  refine ⟨by rw [hfirst], by rw [hfirst, hsecond], by rw [hfirst, hsecond], ?_, ?_⟩
  · intro log now store
    have h := insert_alerts_count_eq_added
      ((find_faults_after_mode_changes log now 300).map (fun row =>
        { alert_id := generate_alert_id "CORR_003" row.plc_ip (get_time_bucket now 300),
          rule_id := "CORR_003", rule_level := 13, plc_ip := row.plc_ip,
          event_type := "FAULT", severity := "CRITICAL", matched_event_count := 2 }))
      0 store
    simpa [check_fault_after_mode_change] using h
  · intro log now store
    have h := insert_alerts_count_eq_added
      (((count_firewall_blocks_in_window log now 120).filter
          (fun row => decide (10 ≤ row.event_count))).map (fun row =>
        { alert_id := generate_alert_id "CORR_004" row.plc_ip (get_time_bucket now 120),
          rule_id := "CORR_004", rule_level := 15, plc_ip := row.plc_ip,
          event_type := "FIREWALL_BLOCK", severity := "CRITICAL",
          matched_event_count := row.event_count }))
      0 store
    simpa [check_firewall_scan] using h

/-- Witness for `alert_insert_idempotent_and_counted` at a concrete store and
row: the empty store does not contain the row's id, the first insert returns
1 and the second returns 0. -/
theorem alert_insert_idempotent_witness :
    containsAlert [] "CORR_001_10.0.0.1_0" = false ∧
    (store_correlation_alert []
      { alert_id := "CORR_001_10.0.0.1_0", rule_id := "CORR_001", rule_level := 14,
        plc_ip := "10.0.0.1", event_type := "MODE_CHANGE", severity := "CRITICAL",
        matched_event_count := 3 }).1 = 1 ∧
    (store_correlation_alert
      (store_correlation_alert []
        { alert_id := "CORR_001_10.0.0.1_0", rule_id := "CORR_001", rule_level := 14,
          plc_ip := "10.0.0.1", event_type := "MODE_CHANGE", severity := "CRITICAL",
          matched_event_count := 3 }).2
      { alert_id := "CORR_001_10.0.0.1_0", rule_id := "CORR_001", rule_level := 14,
        plc_ip := "10.0.0.1", event_type := "MODE_CHANGE", severity := "CRITICAL",
        matched_event_count := 3 }).1 = 0 := by
  have h := alert_insert_idempotent_and_counted []
    { alert_id := "CORR_001_10.0.0.1_0", rule_id := "CORR_001", rule_level := 14,
      plc_ip := "10.0.0.1", event_type := "MODE_CHANGE", severity := "CRITICAL",
      matched_event_count := 3 }
    { alert_id := "CORR_001_10.0.0.1_0", rule_id := "CORR_001", rule_level := 14,
      plc_ip := "10.0.0.1", event_type := "MODE_CHANGE", severity := "CRITICAL",
      matched_event_count := 3 }
    rfl rfl
  exact ⟨rfl, h.1, h.2.1⟩

/-- Claim C8: for every accepted connection whose source IP is not
whitelisted, the gate performs exactly: increment the block counter, record
one WARNING-severity FIREWALL_BLOCK (DENY) event for that source IP, and close
the client socket; it spawns no relay session, opens no connection to the
upstream target, and sends it no bytes.  (The DENY event-type constant is
modelled from the spec, see `EVENT_FIREWALL_BLOCK`.) -/
theorem denied_connection_logged_closed_no_upstream (st : FirewallState)
    (ip : String) (target_port : Nat) (log_allowed : Bool)
    (h : is_whitelisted st ip = false) :
    handle_connection st ip target_port log_allowed =
      [FwAction.incBlocked,
       FwAction.sinkEvent
         { event_type := "FIREWALL_BLOCK", severity := "WARNING", plc_ip := ip },
       FwAction.closeClient] ∧
    (∀ p, FwAction.spawnRelay p ∉ handle_connection st ip target_port log_allowed) ∧
    (∀ p, FwAction.connectUpstream p ∉ handle_connection st ip target_port log_allowed) ∧
    FwAction.sendUpstream ∉ handle_connection st ip target_port log_allowed := by
  have htr : handle_connection st ip target_port log_allowed =
      [FwAction.incBlocked,
       FwAction.sinkEvent
         { event_type := "FIREWALL_BLOCK", severity := "WARNING", plc_ip := ip },
       FwAction.closeClient] := by
    simp [handle_connection, h, log_firewall_event, EVENT_FIREWALL_BLOCK]
  refine ⟨htr, ?_, ?_, ?_⟩ <;> rw [htr] <;> simp

/-- Witness for `denied_connection_logged_closed_no_upstream`: a firewall
constructed with no configured whitelist and a failed constructor fetch does
not whitelist `203.0.113.50`, and handling that connection yields exactly the
block-log-close trace. -/
theorem denied_connection_witness :
    is_whitelisted (firewall_init none (Except.error "db down")) "203.0.113.50" = false ∧
    handle_connection (firewall_init none (Except.error "db down")) "203.0.113.50"
        44818 true =
      [FwAction.incBlocked,
       FwAction.sinkEvent
         { event_type := "FIREWALL_BLOCK", severity := "WARNING",
           plc_ip := "203.0.113.50" },
       FwAction.closeClient] :=
  ⟨rfl,
   (denied_connection_logged_closed_no_upstream
     (firewall_init none (Except.error "db down")) "203.0.113.50" 44818 true rfl).1⟩

/-- Claim C9 counterexample: a relay session whose upstream connect raises
records no event at all to the event sink — in particular no ERROR-severity
event — although the client socket does get closed before the session ends.
The connect failure is only printed to the console. -/
theorem connect_failure_no_sink_event_cex :
    sink_events (relay_thread 44818 (Except.error "connection timed out") []) = [] ∧
    FwAction.closeClient ∈ relay_thread 44818 (Except.error "connection timed out") [] := by
  constructor
  · rfl
  · decide

/-- Claim C9 amended: if the relay session's connect to the upstream target
fails, the session prints the error to the console, records no event to the
event sink, and — in the `finally` clause — decrements the active-connection
counter and closes the client socket (and the upstream socket handle) before
the session ends. -/
theorem connect_failure_console_only (target_port : Nat) (e : String)
    (body : List FwAction) :
    relay_thread target_port (Except.error e) body =
      [FwAction.incActive, FwAction.consolePrint, FwAction.decActive,
       FwAction.closeClient, FwAction.closeUpstream] ∧
    sink_events (relay_thread target_port (Except.error e) body) = [] := by
  constructor <;> rfl

end PRTSec
